import Mathlib

/-!
# Verification of audero-sticky (position:sticky polyfill)

Shallow embedding of `src/audero-sticky.js` (the ES6 variant, which the
legacy UMD variant mirrors). Geometry quantities are rationals; the result
of a `parseFloat` that may be `NaN` is an `Option ℚ` with `none` playing
the role of `NaN` (comparisons against `NaN` are `false`, and
`parseFloat(x) || 0` is `Option.getD 0`).
-/

namespace AuderoSticky

/-- A computed-style / bounding-rect snapshot of an element, as read by
`calculateBoundaries`: rect top/bottom of the element, rect top/bottom of
its parent, and the parsed computed `top` / `bottom` (`none` = `'auto'`,
whose `parseFloat` is `NaN`). -/
structure ElementGeom where
  rectTop : ℚ
  rectBottom : ℚ
  parentRectTop : ℚ
  parentRectBottom : ℚ
  styleTop : Option ℚ
  styleBottom : Option ℚ
  deriving Repr, DecidableEq

/-- The margins captured by `getStickyMargins` (parsed `parseFloat` results;
`none` = `NaN`). -/
structure StickyMargins where
  marginTop : Option ℚ
  marginBottom : Option ℚ
  deriving Repr, DecidableEq

/-- The result of `calculateBoundaries`. `start` can be `NaN` (bottom case
with `bottom: auto`), hence `Option ℚ`; `end` is always a number because the
margin term is defended by `|| 0`.  `end` is a Lean keyword, so the field is
`end_`. -/
structure Boundaries where
  start : Option ℚ
  end_ : ℚ
  deriving Repr, DecidableEq

/-- `calculateBoundaries(element, stickyMargins)` of src/audero-sticky.js:
top case (computed `top` ≠ `'auto'`):
`start = rect.top - parseFloat(style.top)`,
`end = parentRect.bottom - (parseFloat(margins.marginBottom) || 0)`;
bottom case: `start = rect.bottom + parseFloat(style.bottom)`,
`end = parentRect.top + (parseFloat(margins.marginTop) || 0)`;
both fields then get `window.pageYOffset` added. -/
def calculateBoundaries (element : ElementGeom) (stickyMargins : StickyMargins)
    (pageYOffset : ℚ) : Boundaries :=
  match element.styleTop with
  | some t =>
      { start := some (element.rectTop - t + pageYOffset)
        end_ := element.parentRectBottom - stickyMargins.marginBottom.getD 0 + pageYOffset }
  | none =>
      { start := element.styleBottom.map (fun b => element.rectBottom + b + pageYOffset)
        end_ := element.parentRectTop + stickyMargins.marginTop.getD 0 + pageYOffset }

/-- JS `x >= s` where `s` may be `NaN`: false on `NaN`. -/
def geNaN (x : ℚ) (s : Option ℚ) : Bool :=
  match s with
  | some v => x ≥ v
  | none => false

/-- JS `x <= s` where `s` may be `NaN`: false on `NaN`. -/
def leNaN (x : ℚ) (s : Option ℚ) : Bool :=
  match s with
  | some v => x ≤ v
  | none => false

/-- The in-range test of `stickToTop`:
`window.pageYOffset >= boundaries.start && window.pageYOffset <= boundaries.end`. -/
def topInRange (b : Boundaries) (pageYOffset : ℚ) : Bool :=
  geNaN pageYOffset b.start && decide (pageYOffset ≤ b.end_)

/-- The in-range test of `stickToBottom` at
`windowBottom = window.pageYOffset + window.innerHeight`:
`windowBottom <= boundaries.start && windowBottom >= boundaries.end`. -/
def bottomInRange (b : Boundaries) (windowBottom : ℚ) : Bool :=
  leNaN windowBottom b.start && decide (windowBottom ≥ b.end_)

/-- The inline style declaration of an element, restricted to the properties
the library reads or writes. Values are the raw CSS strings; an empty string
is an unset property. -/
structure StyleDecl where
  position : String
  top : String
  bottom : String
  width : String
  height : String
  left : String
  marginLeft : String
  marginRight : String
  marginTop : String
  marginBottom : String
  zIndex : String
  visibility : String
  deriving Repr, DecidableEq

/-- The inline style of a freshly created element (`document.createElement`):
every property unset. -/
def emptyStyle : StyleDecl :=
  { position := "", top := "", bottom := "", width := "", height := "", left := ""
    marginLeft := "", marginRight := "", marginTop := "", marginBottom := ""
    zIndex := "", visibility := "" }

/-- `Style.copyStyleProperties(style, blueprintStyle, properties)` with the
library's `properties` list `[width, height, left, marginLeft, marginRight,
zIndex]`. -/
def copyMainProperties (style blueprintStyle : StyleDecl) : StyleDecl :=
  { style with
    width := blueprintStyle.width, height := blueprintStyle.height
    left := blueprintStyle.left, marginLeft := blueprintStyle.marginLeft
    marginRight := blueprintStyle.marginRight, zIndex := blueprintStyle.zIndex }

/-- `Style.resetStyleProperties(style, properties.concat([marginTop,
marginBottom, top, bottom]))` as called by `cleanUp`. -/
def resetTouchedProperties (style : StyleDecl) : StyleDecl :=
  { style with
    width := "", height := "", left := "", marginLeft := "", marginRight := ""
    zIndex := "", marginTop := "", marginBottom := "", top := "", bottom := "" }

/-- Rendering of a number as a CSS pixel length (template `` `${v}px` ``). -/
def toPx (v : ℚ) : String :=
  toString v ++ "px"

/-- The part of `getComputedStyle(element)` read by
`updatePlaceholderStyle` (raw strings). -/
structure ComputedSnapshot where
  top : String
  bottom : String
  marginTop : String
  marginBottom : String
  marginLeft : String
  marginRight : String
  deriving Repr, DecidableEq

/-- The part of `element.getBoundingClientRect()` read by
`updatePlaceholderStyle`. -/
structure RectSnapshot where
  width : ℚ
  height : ℚ
  left : ℚ
  deriving Repr, DecidableEq

/-- `updatePlaceholderStyle(sticky)`: copies `top, bottom, marginTop,
marginBottom, marginLeft, marginRight` from the element's computed style and
`width, height, left` from its bounding rect (via `convertNumbersToPixels`)
into the placeholder's style. -/
def updatePlaceholderStyle (computed : ComputedSnapshot) (rect : RectSnapshot)
    (placeholderStyle : StyleDecl) : StyleDecl :=
  { placeholderStyle with
    top := computed.top, bottom := computed.bottom
    marginTop := computed.marginTop, marginBottom := computed.marginBottom
    marginLeft := computed.marginLeft, marginRight := computed.marginRight
    width := toPx rect.width, height := toPx rect.height, left := toPx rect.left }

/-- The per-instance values captured by the closure `onScroll(sticky)` at
handler-construction time: the sticky margins read by `getStickyMargins`,
`distanceFromSide` (`parseFloat` of computed `top`, or of computed `bottom`
when `top` is `'auto'`), and the branch choice
`elementStyle.top !== 'auto' ? stickToTop : stickToBottom`. -/
structure ScrollClosure where
  stickyMargins : StickyMargins
  distanceFromSide : Option ℚ
  stickTop : Bool
  deriving Repr, DecidableEq

/-- The DOM reads a single scroll-handler invocation can perform:
geometry of the element and of the placeholder (whichever
`getBoundaries` consults), the computed-style/rect snapshot used by
`updatePlaceholderStyle` if sticking starts, the parsed computed height
(`none` = `NaN`), and the window's scroll offset and inner height. -/
structure TickEnv where
  elementGeom : ElementGeom
  placeholderGeom : ElementGeom
  elementComputed : ComputedSnapshot
  elementRect : RectSnapshot
  computedHeight : Option ℚ
  pageYOffset : ℚ
  innerHeight : ℚ
  deriving Repr, DecidableEq

/-- The mutable state a scroll-handler invocation touches: the element's
inline style, the placeholder's inline style, whether the placeholder is in
the DOM (`placeholder.parentNode`), whether the element carries the active
class, the saved `data.position`, and the log of fired custom events. -/
structure TickState where
  elementStyle : StyleDecl
  placeholderStyle : StyleDecl
  attached : Bool
  activeClass : Bool
  savedPosition : String
  events : List String
  deriving Repr, DecidableEq

/-- `startSticky()` (inside `onScroll`): refreshes the placeholder style,
saves `data.position := element.style.position`, sets the element
`position: fixed`, copies the placeholder's main properties onto the
element, inserts the placeholder, fires `stickystart` and adds the active
class. -/
def startSticky (env : TickEnv) (s : TickState) : TickState :=
  let ps := updatePlaceholderStyle env.elementComputed env.elementRect s.placeholderStyle
  let saved := s.elementStyle.position
  let es := copyMainProperties { s.elementStyle with position := "fixed" } ps
  { s with
    placeholderStyle := ps, savedPosition := saved, elementStyle := es
    attached := true, events := s.events ++ ["stickystart"], activeClass := true }

/-- The effect of `cleanUp(sticky)` when the store entry exists: resets the
touched style properties, restores `element.style.position := data.position`
and removes the placeholder from the DOM if attached. -/
def cleanUpCore (s : TickState) : TickState :=
  { s with
    elementStyle := { resetTouchedProperties s.elementStyle with position := s.savedPosition }
    attached := false }

/-- `endSticky()` (inside `onScroll`): `cleanUp`, fire `stickyend`, remove
the active class. -/
def endSticky (s : TickState) : TickState :=
  let s1 := cleanUpCore s
  { s1 with events := s1.events ++ ["stickyend"], activeClass := false }

/-- `getBoundaries(isSticking)` (inside `onScroll`): boundaries from the
placeholder while sticking, from the element otherwise. -/
def getBoundaries (margins : StickyMargins) (env : TickEnv) (isSticking : Bool) : Boundaries :=
  if isSticking then calculateBoundaries env.placeholderGeom margins env.pageYOffset
  else calculateBoundaries env.elementGeom margins env.pageYOffset

/-- `stickToTop()`: one scroll tick for a top-anchored element. -/
def stickToTop (closure : ScrollClosure) (env : TickEnv) (s : TickState) : TickState :=
  let isAdded := s.attached
  let boundaries := getBoundaries closure.stickyMargins env isAdded
  let height := env.computedHeight.getD 0
  let gap := boundaries.end_ - height - env.pageYOffset
  let isInRange := topInRange boundaries env.pageYOffset
  if isInRange then
    let s1 := if !isAdded then startSticky env s else s
    { s1 with elementStyle := { s1.elementStyle with
        top := if leNaN 0 (closure.distanceFromSide.map (fun d => gap - d)) then ""
               else toPx gap } }
  else if isAdded then endSticky s
  else s

/-- `stickToBottom()`: one scroll tick for a bottom-anchored element. -/
def stickToBottom (closure : ScrollClosure) (env : TickEnv) (s : TickState) : TickState :=
  let isAdded := s.attached
  let boundaries := getBoundaries closure.stickyMargins env isAdded
  let height := env.computedHeight.getD 0
  let windowBottom := env.pageYOffset + env.innerHeight
  let gap := boundaries.end_ + height - windowBottom
  let isInRange := bottomInRange boundaries windowBottom
  if isInRange then
    let s1 := if !isAdded then startSticky env s else s
    { s1 with elementStyle := { s1.elementStyle with
        bottom := if geNaN 0 (closure.distanceFromSide.map (fun d => gap + d)) then ""
                  else toPx (-gap) } }
  else if isAdded then endSticky s
  else s

/-- The scroll handler returned by `onScroll(sticky)`: `stickToTop` when the
computed `top` was not `'auto'` at construction time, `stickToBottom`
otherwise. -/
def scrollHandler (closure : ScrollClosure) (env : TickEnv) (s : TickState) : TickState :=
  if closure.stickTop then stickToTop closure env s else stickToBottom closure env s

/-- A sequence of scroll-handler invocations. -/
def runTicks (closure : ScrollClosure) (envs : List TickEnv) (s : TickState) : TickState :=
  envs.foldl (fun acc e => scrollHandler closure e acc) s

/-- The window-level event listeners the library registers, plus whether the
scroll listener was registered with `{ passive: true }`. -/
structure ListenerSet where
  load : Bool
  scroll : Bool
  scrollPassive : Bool
  resize : Bool
  deriving Repr, DecidableEq

/-- No listeners registered. -/
def noListeners : ListenerSet :=
  { load := false, scroll := false, scrollPassive := false, resize := false }

/-- The store entry `store.getData(element)` created by `init`: the
placeholder (its inline style and whether it is in the DOM), the stored
scroll handler's captured state, and the saved `position`. -/
structure StickyData where
  placeholderStyle : StyleDecl
  placeholderAttached : Bool
  closure : ScrollClosure
  position : String
  deriving Repr, DecidableEq

/-- The whole per-element state: the element's inline style and class, the
optional store entry (`none` before `init` / after `destroy`), the window
listeners, a count of scroll-handler invocations and the event log. -/
structure ElemState where
  elementStyle : StyleDecl
  activeClass : Bool
  storeData : Option StickyData
  listeners : ListenerSet
  scrollCalls : Nat
  events : List String
  deriving Repr, DecidableEq

/-- Project the parts of the per-element state a scroll tick reads. -/
def toTickState (s : ElemState) (d : StickyData) : TickState :=
  { elementStyle := s.elementStyle, placeholderStyle := d.placeholderStyle
    attached := d.placeholderAttached, activeClass := s.activeClass
    savedPosition := d.position, events := s.events }

/-- Write a tick's result back into the per-element state. -/
def ofTickState (s : ElemState) (d : StickyData) (t : TickState) : ElemState :=
  { s with
    elementStyle := t.elementStyle, activeClass := t.activeClass
    storeData := some { d with
      placeholderStyle := t.placeholderStyle
      placeholderAttached := t.attached
      position := t.savedPosition }
    events := t.events }

/-- The environment-dependent values `init` consumes: the margins read by
`getStickyMargins` (computed with the active class transiently toggled), the
`getZIndex` result, passive-listener support, and the DOM reads of the
initial scroll invocation. -/
structure InitEnv where
  stickyMargins : StickyMargins
  zIndex : Int
  passiveSupported : Bool
  tick : TickEnv
  deriving Repr, DecidableEq

/-- `Sticky#init()`: throws when the store entry already exists; otherwise
creates the placeholder, builds and stores the handlers (the `onScroll`
closure reads the sticky margins with the active class toggled on and back
off, leaving the class removed), styles the placeholder
(`visibility: hidden` and the computed z-index), refreshes the placeholder
geometry, binds `load`/`scroll`/`resize` (scroll passive when supported) and
finally invokes the stored scroll handler once. The second component is the
thrown error, `none` on normal return. -/
def init (env : InitEnv) (s : ElemState) : ElemState × Option String :=
  match s.storeData with
  | some _ => (s, some "This element has already been initialized")
  | none =>
      let closure : ScrollClosure :=
        { stickyMargins := env.stickyMargins
          distanceFromSide :=
            if env.tick.elementGeom.styleTop.isSome then env.tick.elementGeom.styleTop
            else env.tick.elementGeom.styleBottom
          stickTop := env.tick.elementGeom.styleTop.isSome }
      let s0 := { s with activeClass := false }
      let data0 : StickyData :=
        { placeholderStyle := emptyStyle, placeholderAttached := false
          closure := closure, position := s.elementStyle.position }
      let data1 := { data0 with placeholderStyle :=
        { data0.placeholderStyle with visibility := "hidden", zIndex := toString env.zIndex } }
      let data2 := { data1 with placeholderStyle :=
        (updatePlaceholderStyle env.tick.elementComputed env.tick.elementRect
          data1.placeholderStyle) }
      let s1 := { s0 with
        storeData := some data2
        listeners := { load := true, scroll := true
                       scrollPassive := env.passiveSupported, resize := true } }
      let t := scrollHandler closure env.tick (toTickState s1 data2)
      let s2 := { ofTickState s1 data2 t with scrollCalls := s1.scrollCalls + 1 }
      (s2, none)

/-- `cleanUp(sticky)` at the element level: reads the store entry, resets
the touched style properties, then dereferences `data.position` — a
`TypeError` when no entry exists (the reset has already happened at the
throw point) — and finally removes the placeholder from the DOM when
attached. -/
def cleanUp (s : ElemState) : ElemState × Option String :=
  let data := s.storeData
  let s1 := { s with elementStyle := resetTouchedProperties s.elementStyle }
  match data with
  | none => (s1, some "TypeError: data is undefined")
  | some d =>
      let s2 := { s1 with elementStyle := { s1.elementStyle with position := d.position } }
      let s3 :=
        if d.placeholderAttached then
          { s2 with storeData := some { d with placeholderAttached := false } }
        else s2
      (s3, none)

/-- `Sticky#destroy()`: `cleanUp`, unbind the events, remove the store
entry. An exception thrown by `cleanUp` propagates, so the later steps do
not run. -/
def destroy (s : ElemState) : ElemState × Option String :=
  match cleanUp s with
  | (s1, some err) => (s1, some err)
  | (s1, none) => ({ s1 with listeners := noListeners, storeData := none }, none)

/-- One delivery of the `scroll` event to the stored handler. The handler
is registered only between `init` and `destroy`, so the store entry exists
whenever it runs; the `none` branch is never reached in that regime. -/
def handleScroll (env : TickEnv) (s : ElemState) : ElemState :=
  match s.storeData with
  | none => s
  | some d =>
      { ofTickState s d (scrollHandler d.closure env (toTickState s d)) with
        scrollCalls := s.scrollCalls + 1 }

/-- A sequence of scroll deliveries at the element level. -/
def runScroll (envs : List TickEnv) (s : ElemState) : ElemState :=
  envs.foldl (fun acc e => handleScroll e acc) s

/-- An options object passed to the constructor. JS objects are open, so it
may also carry keys the library does not read (the spec mentions
`activeClassName`); `none` marks an absent key. -/
structure OptionsHash where
  selector : Option String := none
  activeClass : Option String := none
  activeClassName : Option String := none
  deriving Repr, DecidableEq

/-- The settings produced by `Object.assign({}, defaults, options)` in the
constructor, with `defaults = { selector: '.sticky',
activeClass: 'sticky--active' }`; a key present in `options` wins, and the
extra `activeClassName` key is carried along unread. -/
structure Settings where
  selector : String
  activeClass : String
  activeClassName : Option String
  deriving Repr, DecidableEq

/-- `Object.assign({}, defaults, options)` of `Sticky#constructor`. -/
def mergeSettings (options : OptionsHash) : Settings :=
  { selector := options.selector.getD ".sticky"
    activeClass := options.activeClass.getD "sticky--active"
    activeClassName := options.activeClassName }

/-- The class name `startSticky`/`endSticky` toggle:
`sticky.settings.activeClass`. -/
def toggledClassName (settings : Settings) : String :=
  settings.activeClass

/-- The in-range test a scroll tick performs, as a function of the current
attachment (derived abbreviation over the source definitions). -/
def tickInRange (closure : ScrollClosure) (env : TickEnv) (attached : Bool) : Bool :=
  let b := getBoundaries closure.stickyMargins env attached
  if closure.stickTop then topInRange b env.pageYOffset
  else bottomInRange b (env.pageYOffset + env.innerHeight)

/-! Concrete fixtures used to evaluate the development on closed inputs. -/

/-- A computed-style snapshot of a top-anchored element. -/
def exComputed : ComputedSnapshot :=
  { top := "0px", bottom := "auto", marginTop := "0px", marginBottom := "0px"
    marginLeft := "0px", marginRight := "0px" }

/-- A bounding rect snapshot. -/
def exRect : RectSnapshot :=
  { width := 100, height := 50, left := 0 }

/-- Geometry of a top-anchored element: `top: 0`, 200px from the document
top, inside a parent ending at 1000px (reads taken at scroll offset 0). -/
def exGeomTop : ElementGeom :=
  { rectTop := 200, rectBottom := 250, parentRectTop := 0, parentRectBottom := 1000
    styleTop := some 0, styleBottom := none }

/-- Geometry of a bottom-anchored element (`top: auto`, `bottom: 0`). -/
def exGeomBottom : ElementGeom :=
  { rectTop := 200, rectBottom := 250, parentRectTop := 0, parentRectBottom := 1000
    styleTop := none, styleBottom := some 0 }

/-- Zero sticky margins. -/
def exMargins : StickyMargins :=
  { marginTop := some 0, marginBottom := some 0 }

/-- A tick at scroll offset 0 for the top-anchored geometry (not in range:
the element is still 200px below the viewport top). -/
def exTick0 : TickEnv :=
  { elementGeom := exGeomTop, placeholderGeom := exGeomTop
    elementComputed := exComputed, elementRect := exRect
    computedHeight := some 50, pageYOffset := 0, innerHeight := 800 }

/-- A tick at scroll offset 300 for the top-anchored geometry (in range:
`200 ≤ 300 ≤ 1000` for the boundaries read at offset 0 — the fixture's
geometry reads are document-relative for offset 300 as well, with rect
top `-100`). -/
def exTick300 : TickEnv :=
  { elementGeom :=
      { exGeomTop with
        rectTop := -100, rectBottom := -50, parentRectTop := -300, parentRectBottom := 700 }
    placeholderGeom :=
      { exGeomTop with
        rectTop := -100, rectBottom := -50, parentRectTop := -300, parentRectBottom := 700 }
    elementComputed := exComputed, elementRect := exRect
    computedHeight := some 50, pageYOffset := 300, innerHeight := 800 }

/-- An `init` environment built around the offset-0 tick. -/
def exInitEnv : InitEnv :=
  { stickyMargins := exMargins, zIndex := 1, passiveSupported := true, tick := exTick0 }

/-- An `init` environment built around the offset-300 (in-range) tick. -/
def exInitEnv300 : InitEnv :=
  { stickyMargins := exMargins, zIndex := 1, passiveSupported := true, tick := exTick300 }

/-- A fresh, never-initialized element. -/
def exElem : ElemState :=
  { elementStyle := emptyStyle, activeClass := false, storeData := none
    listeners := noListeners, scrollCalls := 0, events := [] }

/-- A fresh tick-level state (placeholder detached). -/
def exTickState : TickState :=
  { elementStyle := emptyStyle, placeholderStyle := emptyStyle, attached := false
    activeClass := false, savedPosition := "", events := [] }

/-- A top-anchor scroll closure with `top: 0` and zero margins. -/
def exClosureTop : ScrollClosure :=
  { stickyMargins := exMargins, distanceFromSide := some 0, stickTop := true }

/-- A bottom-anchor scroll closure with `bottom: 0` and zero margins. -/
def exClosureBottom : ScrollClosure :=
  { stickyMargins := exMargins, distanceFromSide := some 0, stickTop := false }

/-- A store entry as `init` would leave it for a fresh element. -/
def exData : StickyData :=
  { placeholderStyle := emptyStyle, placeholderAttached := false
    closure := exClosureTop, position := "" }

/-- A tick-level state with the placeholder attached and the active class
set (the sticking state). -/
def exTickStateAttached : TickState :=
  { exTickState with attached := true, activeClass := true }

/-- A tick at scroll offset 980, near the end of the top-anchored range
(document-relative boundaries `[200, 1000]`): in range with a negative gap
`1000 - 50 - 980 = -30`. -/
def exTick980 : TickEnv :=
  { elementGeom :=
      { exGeomTop with
        rectTop := -780, rectBottom := -730, parentRectTop := -980, parentRectBottom := 20 }
    placeholderGeom :=
      { exGeomTop with
        rectTop := -780, rectBottom := -730, parentRectTop := -980, parentRectBottom := 20 }
    elementComputed := exComputed, elementRect := exRect
    computedHeight := some 50, pageYOffset := 980, innerHeight := 800 }

/-- Geometry of a bottom-anchored element sitting near the bottom of the
viewport. -/
def exGeomBottomLow : ElementGeom :=
  { rectTop := 850, rectBottom := 900, parentRectTop := 100, parentRectBottom := 1000
    styleTop := none, styleBottom := some 0 }

/-- A tick at scroll offset 0 for the low bottom-anchored geometry: in
range (`100 ≤ 800 ≤ 900` for `windowBottom = 800`). -/
def exTickBottom : TickEnv :=
  { elementGeom := exGeomBottomLow, placeholderGeom := exGeomBottomLow
    elementComputed := exComputed, elementRect := exRect
    computedHeight := some 50, pageYOffset := 0, innerHeight := 800 }

/-- A fresh element carrying an inline `width: 50px` before `init`. -/
def exElemWidth : ElemState :=
  { exElem with elementStyle := { emptyStyle with width := "50px" } }

/-- A fresh element carrying an inline `position: absolute` before `init`. -/
def exElemPos : ElemState :=
  { exElem with elementStyle := { emptyStyle with position := "absolute" } }

/-- The destroy-restores-position invariant: the store entry exists, its
saved `position` is the element's pre-`init` inline position, and while the
placeholder is detached the element's inline position is that original
value. -/
def PositionInv (orig : String) (s : ElemState) : Prop :=
  ∃ d, s.storeData = some d ∧ d.position = orig ∧
    (d.placeholderAttached = false → s.elementStyle.position = orig)

lemma stickToTop_attached (closure : ScrollClosure) (env : TickEnv) (s : TickState) :
    (stickToTop closure env s).attached =
      topInRange (getBoundaries closure.stickyMargins env s.attached) env.pageYOffset := by
  cases hs : s.attached <;>
    simp only [stickToTop, hs] <;>
    split <;>
    simp_all [startSticky, endSticky, cleanUpCore]

lemma stickToBottom_attached (closure : ScrollClosure) (env : TickEnv) (s : TickState) :
    (stickToBottom closure env s).attached =
      bottomInRange (getBoundaries closure.stickyMargins env s.attached)
        (env.pageYOffset + env.innerHeight) := by
  cases hs : s.attached <;>
    simp only [stickToBottom, hs] <;>
    split <;>
    simp_all [startSticky, endSticky, cleanUpCore]

lemma stickToTop_activeClass (closure : ScrollClosure) (env : TickEnv) (s : TickState) :
    (stickToTop closure env s).activeClass =
      (if topInRange (getBoundaries closure.stickyMargins env s.attached) env.pageYOffset then
        (if s.attached then s.activeClass else true)
       else (if s.attached then false else s.activeClass)) := by
  cases hs : s.attached <;>
    simp only [stickToTop, hs] <;>
    split <;>
    simp_all [startSticky, endSticky, cleanUpCore]

lemma stickToBottom_activeClass (closure : ScrollClosure) (env : TickEnv) (s : TickState) :
    (stickToBottom closure env s).activeClass =
      (if bottomInRange (getBoundaries closure.stickyMargins env s.attached)
          (env.pageYOffset + env.innerHeight) then
        (if s.attached then s.activeClass else true)
       else (if s.attached then false else s.activeClass)) := by
  cases hs : s.attached <;>
    simp only [stickToBottom, hs] <;>
    split <;>
    simp_all [startSticky, endSticky, cleanUpCore]

lemma stickToTop_events (closure : ScrollClosure) (env : TickEnv) (s : TickState) :
    (stickToTop closure env s).events =
      (if topInRange (getBoundaries closure.stickyMargins env s.attached) env.pageYOffset then
        (if s.attached then s.events else s.events ++ ["stickystart"])
       else (if s.attached then s.events ++ ["stickyend"] else s.events)) := by
  cases hs : s.attached <;>
    simp only [stickToTop, hs] <;>
    split <;>
    simp_all [startSticky, endSticky, cleanUpCore]

lemma stickToBottom_events (closure : ScrollClosure) (env : TickEnv) (s : TickState) :
    (stickToBottom closure env s).events =
      (if bottomInRange (getBoundaries closure.stickyMargins env s.attached)
          (env.pageYOffset + env.innerHeight) then
        (if s.attached then s.events else s.events ++ ["stickystart"])
       else (if s.attached then s.events ++ ["stickyend"] else s.events)) := by
  cases hs : s.attached <;>
    simp only [stickToBottom, hs] <;>
    split <;>
    simp_all [startSticky, endSticky, cleanUpCore]

lemma stickToTop_placeholderStyle (closure : ScrollClosure) (env : TickEnv) (s : TickState) :
    (stickToTop closure env s).placeholderStyle =
      (if topInRange (getBoundaries closure.stickyMargins env s.attached) env.pageYOffset then
        (if s.attached then s.placeholderStyle
         else updatePlaceholderStyle env.elementComputed env.elementRect s.placeholderStyle)
       else s.placeholderStyle) := by
  cases hs : s.attached <;>
    simp only [stickToTop, hs] <;>
    split <;>
    simp_all [startSticky, endSticky, cleanUpCore]

lemma stickToBottom_placeholderStyle (closure : ScrollClosure) (env : TickEnv) (s : TickState) :
    (stickToBottom closure env s).placeholderStyle =
      (if bottomInRange (getBoundaries closure.stickyMargins env s.attached)
          (env.pageYOffset + env.innerHeight) then
        (if s.attached then s.placeholderStyle
         else updatePlaceholderStyle env.elementComputed env.elementRect s.placeholderStyle)
       else s.placeholderStyle) := by
  cases hs : s.attached <;>
    simp only [stickToBottom, hs] <;>
    split <;>
    simp_all [startSticky, endSticky, cleanUpCore]

lemma stickToTop_savedPosition (closure : ScrollClosure) (env : TickEnv) (s : TickState) :
    (stickToTop closure env s).savedPosition =
      (if topInRange (getBoundaries closure.stickyMargins env s.attached) env.pageYOffset then
        (if s.attached then s.savedPosition else s.elementStyle.position)
       else s.savedPosition) := by
  cases hs : s.attached <;>
    simp only [stickToTop, hs] <;>
    split <;>
    simp_all [startSticky, endSticky, cleanUpCore]

lemma stickToBottom_savedPosition (closure : ScrollClosure) (env : TickEnv) (s : TickState) :
    (stickToBottom closure env s).savedPosition =
      (if bottomInRange (getBoundaries closure.stickyMargins env s.attached)
          (env.pageYOffset + env.innerHeight) then
        (if s.attached then s.savedPosition else s.elementStyle.position)
       else s.savedPosition) := by
  cases hs : s.attached <;>
    simp only [stickToBottom, hs] <;>
    split <;>
    simp_all [startSticky, endSticky, cleanUpCore]

lemma stickToTop_stylePosition (closure : ScrollClosure) (env : TickEnv) (s : TickState) :
    (stickToTop closure env s).elementStyle.position =
      (if topInRange (getBoundaries closure.stickyMargins env s.attached) env.pageYOffset then
        (if s.attached then s.elementStyle.position else "fixed")
       else (if s.attached then s.savedPosition else s.elementStyle.position)) := by
  cases hs : s.attached <;>
    simp only [stickToTop, hs] <;>
    split <;>
    simp_all [startSticky, endSticky, cleanUpCore, copyMainProperties, resetTouchedProperties]

lemma stickToBottom_stylePosition (closure : ScrollClosure) (env : TickEnv) (s : TickState) :
    (stickToBottom closure env s).elementStyle.position =
      (if bottomInRange (getBoundaries closure.stickyMargins env s.attached)
          (env.pageYOffset + env.innerHeight) then
        (if s.attached then s.elementStyle.position else "fixed")
       else (if s.attached then s.savedPosition else s.elementStyle.position)) := by
  cases hs : s.attached <;>
    simp only [stickToBottom, hs] <;>
    split <;>
    simp_all [startSticky, endSticky, cleanUpCore, copyMainProperties, resetTouchedProperties]

lemma stickToTop_styleTop (closure : ScrollClosure) (env : TickEnv) (s : TickState)
    (h : topInRange (getBoundaries closure.stickyMargins env s.attached) env.pageYOffset = true) :
    (stickToTop closure env s).elementStyle.top =
      (let gap := (getBoundaries closure.stickyMargins env s.attached).end_ -
        env.computedHeight.getD 0 - env.pageYOffset
       if leNaN 0 (closure.distanceFromSide.map (fun d => gap - d)) then "" else toPx gap) := by
  cases hs : s.attached <;>
    simp only [stickToTop, hs] <;>
    simp_all [startSticky, copyMainProperties]

lemma stickToBottom_styleBottom (closure : ScrollClosure) (env : TickEnv) (s : TickState)
    (h : bottomInRange (getBoundaries closure.stickyMargins env s.attached)
      (env.pageYOffset + env.innerHeight) = true) :
    (stickToBottom closure env s).elementStyle.bottom =
      (let gap := (getBoundaries closure.stickyMargins env s.attached).end_ +
        env.computedHeight.getD 0 - (env.pageYOffset + env.innerHeight)
       if geNaN 0 (closure.distanceFromSide.map (fun d => gap + d)) then "" else toPx (-gap)) := by
  cases hs : s.attached <;>
    simp only [stickToBottom, hs] <;>
    simp_all [startSticky, copyMainProperties]

lemma scrollHandler_attached (closure : ScrollClosure) (env : TickEnv) (s : TickState) :
    (scrollHandler closure env s).attached = tickInRange closure env s.attached := by
  unfold scrollHandler tickInRange
  split <;> simp [stickToTop_attached, stickToBottom_attached]

lemma scrollHandler_activeClass (closure : ScrollClosure) (env : TickEnv) (s : TickState) :
    (scrollHandler closure env s).activeClass =
      (if tickInRange closure env s.attached then
        (if s.attached then s.activeClass else true)
       else (if s.attached then false else s.activeClass)) := by
  unfold scrollHandler tickInRange
  split <;> simp [stickToTop_activeClass, stickToBottom_activeClass]

lemma scrollHandler_events (closure : ScrollClosure) (env : TickEnv) (s : TickState) :
    (scrollHandler closure env s).events =
      (if tickInRange closure env s.attached then
        (if s.attached then s.events else s.events ++ ["stickystart"])
       else (if s.attached then s.events ++ ["stickyend"] else s.events)) := by
  unfold scrollHandler tickInRange
  split <;> simp [stickToTop_events, stickToBottom_events]

lemma scrollHandler_placeholderStyle (closure : ScrollClosure) (env : TickEnv) (s : TickState) :
    (scrollHandler closure env s).placeholderStyle =
      (if tickInRange closure env s.attached then
        (if s.attached then s.placeholderStyle
         else updatePlaceholderStyle env.elementComputed env.elementRect s.placeholderStyle)
       else s.placeholderStyle) := by
  unfold scrollHandler tickInRange
  split <;> simp [stickToTop_placeholderStyle, stickToBottom_placeholderStyle]

lemma scrollHandler_savedPosition (closure : ScrollClosure) (env : TickEnv) (s : TickState) :
    (scrollHandler closure env s).savedPosition =
      (if tickInRange closure env s.attached then
        (if s.attached then s.savedPosition else s.elementStyle.position)
       else s.savedPosition) := by
  unfold scrollHandler tickInRange
  split <;> simp [stickToTop_savedPosition, stickToBottom_savedPosition]

lemma scrollHandler_stylePosition (closure : ScrollClosure) (env : TickEnv) (s : TickState) :
    (scrollHandler closure env s).elementStyle.position =
      (if tickInRange closure env s.attached then
        (if s.attached then s.elementStyle.position else "fixed")
       else (if s.attached then s.savedPosition else s.elementStyle.position)) := by
  unfold scrollHandler tickInRange
  split <;> simp [stickToTop_stylePosition, stickToBottom_stylePosition]

/-- **C1**: for every element whose computed `top` style is not `'auto'`,
`calculateBoundaries` returns `start = rect.top - parseFloat(style.top)` and
`end = parentRect.bottom - (parseFloat(stickyMargins.marginBottom) || 0)`
(the margin treated as 0 when it does not parse to a number), with the
current `window.pageYOffset` added to both `start` and `end`. -/
theorem calculateBoundaries_top_case (e : ElementGeom) (m : StickyMargins) (y t : ℚ)
    (h : e.styleTop = some t) :
    calculateBoundaries e m y =
      { start := some (e.rectTop - t + y)
        end_ := e.parentRectBottom - m.marginBottom.getD 0 + y } := by
  simp [calculateBoundaries, h]

/-- Witness for C1: the example top-anchored geometry at offset 150 with a
`4px` sticky bottom margin. -/
theorem calculateBoundaries_top_case_witness :
    calculateBoundaries exGeomTop { marginTop := none, marginBottom := some 4 } 150 =
      { start := some 350, end_ := 1146 } := by
  rw [calculateBoundaries_top_case exGeomTop _ 150 0 rfl]
  norm_num [exGeomTop, Boundaries.mk.injEq]

/-- **C2**: for `top: auto` (bottom anchor) — `calculateBoundaries` returns
`start = rect.bottom + parseFloat(style.bottom)`,
`end = parentRect.top + (parseFloat(marginTop) || 0)`, both plus
`pageYOffset`; the scroll handler judges the element in range at
`windowBottom = pageYOffset + innerHeight` exactly when
`windowBottom ≤ start ∧ windowBottom ≥ end` — the comparison direction
flipped relative to the top case's `start ≤ pageYOffset ≤ end`. -/
theorem calculateBoundaries_bottom_case_and_range :
    (∀ (e : ElementGeom) (m : StickyMargins) (y b : ℚ),
      e.styleTop = none → e.styleBottom = some b →
      calculateBoundaries e m y =
        { start := some (e.rectBottom + b + y)
          end_ := e.parentRectTop + m.marginTop.getD 0 + y }) ∧
    (∀ (closure : ScrollClosure) (env : TickEnv) (s : TickState),
      closure.stickTop = false →
      (scrollHandler closure env s).attached =
        bottomInRange (getBoundaries closure.stickyMargins env s.attached)
          (env.pageYOffset + env.innerHeight)) ∧
    (∀ (bd : Boundaries) (st wb : ℚ), bd.start = some st →
      (bottomInRange bd wb = true ↔ (wb ≤ st ∧ wb ≥ bd.end_))) ∧
    (∀ (bd : Boundaries) (st y : ℚ), bd.start = some st →
      (topInRange bd y = true ↔ (st ≤ y ∧ y ≤ bd.end_))) := by
  refine ⟨?_, ?_, ?_, ?_⟩
  · intro e m y b ht hb
    simp [calculateBoundaries, ht, hb]
  · intro closure env s hc
    simp [scrollHandler, hc, stickToBottom_attached]
  · intro bd st wb h
    simp [bottomInRange, leNaN, h, ge_iff_le]
  · intro bd st y h
    simp [topInRange, geNaN, h]

/-- Witness for C2: each conjunct at a concrete input. -/
theorem calculateBoundaries_bottom_case_and_range_witness :
    (calculateBoundaries exGeomBottom exMargins 100 = { start := some 350, end_ := 100 }) ∧
    ((scrollHandler exClosureBottom exTick0 exTickState).attached =
      bottomInRange (getBoundaries exClosureBottom.stickyMargins exTick0 exTickState.attached)
        (exTick0.pageYOffset + exTick0.innerHeight)) ∧
    (bottomInRange { start := some 5, end_ := 2 } 3 = true ↔ ((3:ℚ) ≤ 5 ∧ (3:ℚ) ≥ 2)) ∧
    (topInRange { start := some 5, end_ := 9 } 7 = true ↔ ((5:ℚ) ≤ 7 ∧ (7:ℚ) ≤ 9)) := by
  refine ⟨?_, ?_, ?_, ?_⟩
  · rw [calculateBoundaries_bottom_case_and_range.1 exGeomBottom exMargins 100 0 rfl rfl]
    norm_num [exGeomBottom, exMargins, Boundaries.mk.injEq]
  · exact calculateBoundaries_bottom_case_and_range.2.1 exClosureBottom exTick0 exTickState rfl
  · exact calculateBoundaries_bottom_case_and_range.2.2.1 _ 5 3 rfl
  · exact calculateBoundaries_bottom_case_and_range.2.2.2 _ 5 7 rfl

/-- **C3**: calling `init()` on an element that already has a store entry
throws `Error('This element has already been initialized')` and returns with
the whole per-element state exactly as it was — stored data, inline styles,
registered listeners and event log untouched. -/
theorem init_twice_fails (env : InitEnv) (s : ElemState) (d : StickyData)
    (h : s.storeData = some d) :
    init env s = (s, some "This element has already been initialized") := by
  simp [init, h]

/-- Witness for C3: a second `init` on an already-initialized element. -/
theorem init_twice_fails_witness :
    init exInitEnv { exElem with storeData := some exData } =
      ({ exElem with storeData := some exData },
        some "This element has already been initialized") :=
  init_twice_fails exInitEnv _ exData rfl

/-- C9 counterexample: with `options = { activeClassName: 'custom' }` the
class toggled on stick transitions is still `'sticky--active'`, not
`'custom'`: the key the code reads is `activeClass`, not the claim's
`activeClassName`. -/
theorem settings_activeClassName_counterexample :
    toggledClassName (mergeSettings { activeClassName := some "custom" }) = "sticky--active" ∧
    toggledClassName (mergeSettings { activeClassName := some "custom" }) ≠ "custom" := by
  constructor <;> decide

/-- **C9** (amended): the settings are the defaults `{ selector: '.sticky',
activeClass: 'sticky--active' }` overridden key-by-key by `options`, so the
class name toggled on stick transitions is `options.activeClass` when that
key is provided and `'sticky--active'` otherwise — an `activeClassName` key
has no effect — and the options object itself is not modified. -/
theorem mergeSettings_defaults_overridden (o : OptionsHash) :
    (o.selector = none → (mergeSettings o).selector = ".sticky") ∧
    (∀ v, o.selector = some v → (mergeSettings o).selector = v) ∧
    (o.activeClass = none → toggledClassName (mergeSettings o) = "sticky--active") ∧
    (∀ v, o.activeClass = some v → toggledClassName (mergeSettings o) = v) ∧
    (o.activeClass = none → ∀ v, o.activeClassName = some v →
      toggledClassName (mergeSettings o) = "sticky--active") := by
  refine ⟨?_, ?_, ?_, ?_, ?_⟩
  · intro h; simp [mergeSettings, h]
  · intro v h; simp [mergeSettings, h]
  · intro h; simp [mergeSettings, toggledClassName, h]
  · intro v h; simp [mergeSettings, toggledClassName, h]
  · intro h v hv; simp [mergeSettings, toggledClassName, h]

/-- Witness for C9 (amended): each override case at a concrete options
object. -/
theorem mergeSettings_defaults_overridden_witness :
    (mergeSettings ({} : OptionsHash)).selector = ".sticky" ∧
    (mergeSettings { selector := some ".fixedsticky" }).selector = ".fixedsticky" ∧
    toggledClassName (mergeSettings ({} : OptionsHash)) = "sticky--active" ∧
    toggledClassName (mergeSettings { activeClass := some "on" }) = "on" ∧
    toggledClassName (mergeSettings { activeClassName := some "x" }) = "sticky--active" :=
  ⟨(mergeSettings_defaults_overridden _).1 rfl,
   (mergeSettings_defaults_overridden _).2.1 _ rfl,
   (mergeSettings_defaults_overridden _).2.2.1 rfl,
   (mergeSettings_defaults_overridden _).2.2.2.1 _ rfl,
   (mergeSettings_defaults_overridden _).2.2.2.2 rfl _ rfl⟩

/-- **C10**: `destroy()` without a prior successful `init()` is not a safe
no-op: `cleanUp` reads the missing store entry and dereferences
`data.position`, so the call throws a `TypeError` (after the style resets
that precede the dereference) instead of returning normally. -/
theorem destroy_before_init_typeError (s : ElemState) (h : s.storeData = none) :
    destroy s = ({ s with elementStyle := resetTouchedProperties s.elementStyle },
      some "TypeError: data is undefined") := by
  simp [destroy, cleanUp, h]

/-- Witness for C10: `destroy` on a fresh element. -/
theorem destroy_before_init_typeError_witness :
    destroy exElem = ({ exElem with elementStyle := resetTouchedProperties exElem.elementStyle },
      some "TypeError: data is undefined") :=
  destroy_before_init_typeError exElem rfl

/-- **C4**: on a scroll tick while the element is in range, with
`gap = end - elementHeight - pageYOffset` (top anchor) or
`gap = end + elementHeight - (pageYOffset + innerHeight)` (bottom anchor)
and `elementHeight` treated as 0 when its computed value is `NaN`
(`Option.getD 0`), the handler sets the inline `top` to `gap px` exactly
when `gap - declaredTop < 0` (respectively the inline `bottom` to `-gap px`
exactly when `gap + declaredBottom > 0`), and otherwise clears that style to
the empty string. -/
theorem inRange_gap_offset (closure : ScrollClosure) (env : TickEnv) (s : TickState) (d : ℚ)
    (hd : closure.distanceFromSide = some d) :
    (topInRange (getBoundaries closure.stickyMargins env s.attached) env.pageYOffset = true →
      (stickToTop closure env s).elementStyle.top =
        (if (getBoundaries closure.stickyMargins env s.attached).end_ -
            env.computedHeight.getD 0 - env.pageYOffset - d < 0 then
          toPx ((getBoundaries closure.stickyMargins env s.attached).end_ -
            env.computedHeight.getD 0 - env.pageYOffset)
         else "")) ∧
    (bottomInRange (getBoundaries closure.stickyMargins env s.attached)
        (env.pageYOffset + env.innerHeight) = true →
      (stickToBottom closure env s).elementStyle.bottom =
        (if (getBoundaries closure.stickyMargins env s.attached).end_ +
            env.computedHeight.getD 0 - (env.pageYOffset + env.innerHeight) + d > 0 then
          toPx (-((getBoundaries closure.stickyMargins env s.attached).end_ +
            env.computedHeight.getD 0 - (env.pageYOffset + env.innerHeight)))
         else "")) := by
  constructor
  · intro h
    rw [stickToTop_styleTop closure env s h]
    simp only [hd, Option.map_some', leNaN, decide_eq_true_eq]
    split_ifs with h1 h2 h3 <;> first | rfl | linarith
  · intro h
    rw [stickToBottom_styleBottom closure env s h]
    simp only [hd, Option.map_some', geNaN, decide_eq_true_eq]
    split_ifs with h1 h2 h3 <;> first | rfl | linarith

/-- Witness for C4: near the end of the range a top anchor gets
`top: -30px`; a bottom anchor with a large negative gap gets its `bottom`
cleared. -/
theorem inRange_gap_offset_witness :
    (stickToTop exClosureTop exTick980 exTickState).elementStyle.top = toPx (-30) ∧
    (stickToBottom exClosureBottom exTickBottom exTickState).elementStyle.bottom = "" := by
  have h1 : topInRange (getBoundaries exClosureTop.stickyMargins exTick980 exTickState.attached)
      exTick980.pageYOffset = true := by
    norm_num [getBoundaries, calculateBoundaries, topInRange, geNaN, exClosureTop, exTick980,
      exGeomTop, exMargins, exTickState]
  have h2 : bottomInRange (getBoundaries exClosureBottom.stickyMargins exTickBottom
      exTickState.attached) (exTickBottom.pageYOffset + exTickBottom.innerHeight) = true := by
    norm_num [getBoundaries, calculateBoundaries, bottomInRange, leNaN, exClosureBottom,
      exTickBottom, exGeomBottomLow, exMargins, exTickState]
  constructor
  · rw [(inRange_gap_offset exClosureTop exTick980 exTickState 0 rfl).1 h1]
    norm_num [getBoundaries, calculateBoundaries, exClosureTop, exTick980, exGeomTop, exMargins,
      exTickState]
  · rw [(inRange_gap_offset exClosureBottom exTickBottom exTickState 0 rfl).2 h2]
    norm_num [getBoundaries, calculateBoundaries, exClosureBottom, exTickBottom, exGeomBottomLow,
      exMargins, exTickState]

/-- **C5**: after every scroll-handler invocation the placeholder is in the
DOM iff the instance is in the sticking state (marked by the active class);
on the attach transition `startSticky` first refreshes the placeholder's
geometric style; any attachment change is a `startSticky`/`endSticky`
transition, identified by its fired event; and a successful `init`
establishes the equivalence. -/
theorem attached_iff_sticking :
    (∀ (closure : ScrollClosure) (env : TickEnv) (s : TickState),
      s.attached = s.activeClass →
      ((scrollHandler closure env s).attached = (scrollHandler closure env s).activeClass) ∧
      ((scrollHandler closure env s).attached = true → s.attached = false →
        (scrollHandler closure env s).placeholderStyle =
          updatePlaceholderStyle env.elementComputed env.elementRect s.placeholderStyle) ∧
      ((scrollHandler closure env s).attached ≠ s.attached →
        (s.attached = false →
          (scrollHandler closure env s).events = s.events ++ ["stickystart"]) ∧
        (s.attached = true →
          (scrollHandler closure env s).events = s.events ++ ["stickyend"]))) ∧
    (∀ (ienv : InitEnv) (es : ElemState), es.storeData = none →
      ∀ d, ((init ienv es).1).storeData = some d →
        d.placeholderAttached = ((init ienv es).1).activeClass) := by
  constructor
  · intro closure env s hinv
    refine ⟨?_, ?_, ?_⟩
    · cases hb : s.attached <;>
        cases hi : tickInRange closure env s.attached <;>
        simp_all [scrollHandler_attached, scrollHandler_activeClass]
    · intro h1 h2
      rw [scrollHandler_attached] at h1
      simp only [h2] at h1
      simp [scrollHandler_placeholderStyle, h1, h2]
    · intro hne
      rw [scrollHandler_attached] at hne
      cases hb : s.attached <;>
        cases hi : tickInRange closure env s.attached <;>
        simp_all [scrollHandler_events]
  · intro ienv es hes d hd
    simp only [init, hes] at hd ⊢
    simp only [ofTickState] at hd
    obtain rfl := (Option.some.inj hd).symm
    simp only [ofTickState]
    cases hi : tickInRange
        { stickyMargins := ienv.stickyMargins
          distanceFromSide :=
            if ienv.tick.elementGeom.styleTop.isSome then ienv.tick.elementGeom.styleTop
            else ienv.tick.elementGeom.styleBottom
          stickTop := ienv.tick.elementGeom.styleTop.isSome } ienv.tick false <;>
      simp_all [scrollHandler_attached, scrollHandler_activeClass, toTickState]

/-- Witness for C5: the attach transition at the in-range tick, and the
post-`init` equivalence for a fresh element. -/
theorem attached_iff_sticking_witness :
    ((scrollHandler exClosureTop exTick300 exTickState).attached =
      (scrollHandler exClosureTop exTick300 exTickState).activeClass) ∧
    ((scrollHandler exClosureTop exTick300 exTickState).placeholderStyle =
      updatePlaceholderStyle exTick300.elementComputed exTick300.elementRect
        exTickState.placeholderStyle) ∧
    ((scrollHandler exClosureTop exTick300 exTickState).events =
      exTickState.events ++ ["stickystart"]) ∧
    (∃ d, (init exInitEnv exElem).1.storeData = some d ∧
      d.placeholderAttached = (init exInitEnv exElem).1.activeClass) := by
  have hatt : (scrollHandler exClosureTop exTick300 exTickState).attached = true := by
    rw [scrollHandler_attached]
    norm_num [tickInRange, getBoundaries, calculateBoundaries, topInRange, geNaN,
      exClosureTop, exTick300, exGeomTop, exMargins, exTickState]
  refine ⟨(attached_iff_sticking.1 exClosureTop exTick300 exTickState rfl).1,
    (attached_iff_sticking.1 exClosureTop exTick300 exTickState rfl).2.1 hatt rfl,
    ((attached_iff_sticking.1 exClosureTop exTick300 exTickState rfl).2.2 ?_).1 rfl,
    ⟨_, rfl, attached_iff_sticking.2 exInitEnv exElem rfl _ rfl⟩⟩
  rw [hatt]
  decide

/-- **C6**: per scroll tick, quantified over all states (hence over every
tick of any scroll sequence): a transition from inside the boundaries to
outside fires exactly one `stickyend` and detaches the placeholder; outside
to inside fires exactly one `stickystart`; a tick staying on the same side
fires no event; and every transition toggles the active class. -/
theorem transition_events (closure : ScrollClosure) (env : TickEnv) (s : TickState) :
    (s.attached = true → tickInRange closure env s.attached = false →
      (scrollHandler closure env s).events = s.events ++ ["stickyend"] ∧
      (scrollHandler closure env s).attached = false ∧
      (scrollHandler closure env s).activeClass = false) ∧
    (s.attached = false → tickInRange closure env s.attached = true →
      (scrollHandler closure env s).events = s.events ++ ["stickystart"] ∧
      (scrollHandler closure env s).attached = true ∧
      (scrollHandler closure env s).activeClass = true) ∧
    (tickInRange closure env s.attached = s.attached →
      (scrollHandler closure env s).events = s.events ∧
      (scrollHandler closure env s).attached = s.attached ∧
      (scrollHandler closure env s).activeClass = s.activeClass) := by
  refine ⟨fun ha hi => ?_, fun ha hi => ?_, fun he => ?_⟩
  · simp only [ha] at hi
    simp [scrollHandler_events, scrollHandler_attached, scrollHandler_activeClass, ha, hi]
  · simp only [ha] at hi
    simp [scrollHandler_events, scrollHandler_attached, scrollHandler_activeClass, ha, hi]
  · cases hs : s.attached <;>
      simp_all [scrollHandler_events, scrollHandler_attached, scrollHandler_activeClass]

/-- Witness for C6: the three tick kinds — inside→outside, outside→inside
and same-side — at concrete states and environments. -/
theorem transition_events_witness :
    ((scrollHandler exClosureTop exTick0 exTickStateAttached).events =
      exTickStateAttached.events ++ ["stickyend"]) ∧
    ((scrollHandler exClosureTop exTick300 exTickState).events =
      exTickState.events ++ ["stickystart"]) ∧
    ((scrollHandler exClosureTop exTick0 exTickState).events = exTickState.events) := by
  have h1 : tickInRange exClosureTop exTick0 exTickStateAttached.attached = false := by
    norm_num [tickInRange, getBoundaries, calculateBoundaries, topInRange, geNaN,
      exClosureTop, exTick0, exGeomTop, exMargins, exTickStateAttached, exTickState]
  have h3 : tickInRange exClosureTop exTick0 exTickState.attached = false := by
    norm_num [tickInRange, getBoundaries, calculateBoundaries, topInRange, geNaN,
      exClosureTop, exTick0, exGeomTop, exMargins, exTickState]
  have h2 : tickInRange exClosureTop exTick300 exTickState.attached = true := by
    norm_num [tickInRange, getBoundaries, calculateBoundaries, topInRange, geNaN,
      exClosureTop, exTick300, exGeomTop, exMargins, exTickState]
  exact ⟨((transition_events exClosureTop exTick0 exTickStateAttached).1 rfl h1).1,
    ((transition_events exClosureTop exTick300 exTickState).2.1 rfl h2).1,
    ((transition_events exClosureTop exTick0 exTickState).2.2 (h3.trans rfl)).1⟩

/-- **C8**: a successful `init()` returns without error, stores the
handlers (the store entry holds the `onScroll` closure with the margins,
`distanceFromSide` and branch captured at init time), registers the
`load`/`scroll`/`resize` listeners with the scroll listener passive exactly
when passive listeners are supported, and invokes the stored scroll handler
exactly once before returning, so the post-`init` attachment equals the
in-range verdict at init-time geometry. -/
theorem init_success_behaviour (env : InitEnv) (s : ElemState) (h : s.storeData = none) :
    ((init env s).2 = none) ∧
    ((init env s).1.listeners =
      { load := true, scroll := true, scrollPassive := env.passiveSupported, resize := true }) ∧
    ((init env s).1.scrollCalls = s.scrollCalls + 1) ∧
    (∃ d, (init env s).1.storeData = some d ∧
      d.closure =
        { stickyMargins := env.stickyMargins
          distanceFromSide :=
            if env.tick.elementGeom.styleTop.isSome then env.tick.elementGeom.styleTop
            else env.tick.elementGeom.styleBottom
          stickTop := env.tick.elementGeom.styleTop.isSome } ∧
      d.placeholderAttached = tickInRange d.closure env.tick false) := by
  refine ⟨?_, ?_, ?_, ?_⟩
  · simp [init, h]
  · simp [init, h, ofTickState]
  · simp [init, h, ofTickState]
  · simp only [init, h]
    exact ⟨_, rfl, rfl, by simp [ofTickState, toTickState, scrollHandler_attached]⟩

/-- Witness for C8: `init` on a fresh element. -/
theorem init_success_behaviour_witness :
    ((init exInitEnv exElem).2 = none) ∧
    ((init exInitEnv exElem).1.listeners =
      { load := true, scroll := true, scrollPassive := true, resize := true }) ∧
    ((init exInitEnv exElem).1.scrollCalls = 1) ∧
    (∃ d, (init exInitEnv exElem).1.storeData = some d ∧
      d.closure = exClosureTop ∧
      d.placeholderAttached = tickInRange d.closure exInitEnv.tick false) :=
  init_success_behaviour exInitEnv exElem rfl

lemma handleScroll_positionInv (env : TickEnv) {orig : String} {s : ElemState}
    (h : PositionInv orig s) : PositionInv orig (handleScroll env s) := by
  obtain ⟨d, hd, hpos, hdet⟩ := h
  simp only [handleScroll, hd]
  refine ⟨_, rfl, ?_, ?_⟩
  · rw [scrollHandler_savedPosition]
    simp only [toTickState]
    split_ifs with h1 h2
    · exact hpos
    · exact hdet (by simpa using h2)
    · exact hpos
  · intro hfalse
    simp only [scrollHandler_attached, toTickState] at hfalse
    simp only [ofTickState]
    rw [scrollHandler_stylePosition]
    simp only [toTickState, hfalse, if_false, Bool.false_eq_true]
    split_ifs with h1
    · exact hpos
    · exact hdet (by simpa using h1)

lemma runScroll_positionInv (envs : List TickEnv) {orig : String} {s : ElemState}
    (h : PositionInv orig s) : PositionInv orig (runScroll envs s) := by
  induction envs generalizing s with
  | nil => simpa [runScroll] using h
  | cons e es ih =>
      simpa [runScroll] using ih (handleScroll_positionInv e h)

lemma init_positionInv (env : InitEnv) (s : ElemState) (h : s.storeData = none) :
    PositionInv s.elementStyle.position (init env s).1 := by
  simp only [init, h]
  refine ⟨_, rfl, ?_, ?_⟩
  · rw [scrollHandler_savedPosition]
    simp only [toTickState]
    split_ifs <;> rfl
  · intro hfalse
    simp only [scrollHandler_attached, toTickState] at hfalse
    simp only [ofTickState]
    rw [scrollHandler_stylePosition]
    simp only [toTickState, hfalse, if_false, Bool.false_eq_true]

lemma destroy_positionInv {orig : String} {s : ElemState} (h : PositionInv orig s) :
    (destroy s).2 = none ∧
    (destroy s).1.elementStyle =
      { resetTouchedProperties s.elementStyle with position := orig } := by
  obtain ⟨d, hd, hpos, hdet⟩ := h
  cases hatt : d.placeholderAttached <;>
    simp [destroy, cleanUp, hd, hatt, hpos, resetTouchedProperties]

/-- C7 counterexample: an element with inline `width: 50px` before `init()`
does not get it back from `destroy()` — `cleanUp` resets the touched
properties to the empty string, not to their pre-`init` values. -/
theorem destroy_roundtrip_counterexample :
    (destroy (init exInitEnv exElemWidth).1).1.elementStyle.width ≠
      exElemWidth.elementStyle.width := by
  obtain ⟨d, hd⟩ : ∃ d, (init exInitEnv exElemWidth).1.storeData = some d := ⟨_, rfl⟩
  have hw : (destroy (init exInitEnv exElemWidth).1).1.elementStyle.width = "" := by
    cases hatt : d.placeholderAttached <;>
      simp [destroy, cleanUp, hd, hatt, resetTouchedProperties]
  rw [hw]
  decide

/-- **C7** (amended): after `init()` and any sequence of scroll ticks,
`destroy()` returns normally, restores the inline `position` style to its
exact pre-`init` value, and resets the other ten properties touched by the
library (width, height, left, marginLeft, marginRight, zIndex, top, bottom,
marginTop, marginBottom) to the empty string — equal to their pre-`init`
values exactly when those were empty. -/
theorem destroy_restores_position_resets_styles (env : InitEnv) (envs : List TickEnv)
    (s : ElemState) (h : s.storeData = none) :
    ((destroy (runScroll envs (init env s).1)).2 = none) ∧
    ((destroy (runScroll envs (init env s).1)).1.elementStyle.position =
      s.elementStyle.position) ∧
    ((destroy (runScroll envs (init env s).1)).1.elementStyle.width = "") ∧
    ((destroy (runScroll envs (init env s).1)).1.elementStyle.height = "") ∧
    ((destroy (runScroll envs (init env s).1)).1.elementStyle.left = "") ∧
    ((destroy (runScroll envs (init env s).1)).1.elementStyle.marginLeft = "") ∧
    ((destroy (runScroll envs (init env s).1)).1.elementStyle.marginRight = "") ∧
    ((destroy (runScroll envs (init env s).1)).1.elementStyle.zIndex = "") ∧
    ((destroy (runScroll envs (init env s).1)).1.elementStyle.top = "") ∧
    ((destroy (runScroll envs (init env s).1)).1.elementStyle.bottom = "") ∧
    ((destroy (runScroll envs (init env s).1)).1.elementStyle.marginTop = "") ∧
    ((destroy (runScroll envs (init env s).1)).1.elementStyle.marginBottom = "") := by
  have hfin := destroy_positionInv (runScroll_positionInv envs (init_positionInv env s h))
  refine ⟨hfin.1, ?_, ?_, ?_, ?_, ?_, ?_, ?_, ?_, ?_, ?_, ?_⟩ <;>
    rw [hfin.2] <;> rfl

/-- Witness for C7 (amended): an element with inline `position: absolute`,
initialized at offset 0 and scrolled into range once before `destroy`. -/
theorem destroy_restores_position_resets_styles_witness :
    ((destroy (runScroll [exTick300] (init exInitEnv exElemPos).1)).2 = none) ∧
    ((destroy (runScroll [exTick300] (init exInitEnv exElemPos).1)).1.elementStyle.position =
      "absolute") ∧
    ((destroy (runScroll [exTick300] (init exInitEnv exElemPos).1)).1.elementStyle.width = "") ∧
    ((destroy (runScroll [exTick300] (init exInitEnv exElemPos).1)).1.elementStyle.height = "") ∧
    ((destroy (runScroll [exTick300] (init exInitEnv exElemPos).1)).1.elementStyle.left = "") ∧
    ((destroy (runScroll [exTick300] (init exInitEnv exElemPos).1)).1.elementStyle.marginLeft
      = "") ∧
    ((destroy (runScroll [exTick300] (init exInitEnv exElemPos).1)).1.elementStyle.marginRight
      = "") ∧
    ((destroy (runScroll [exTick300] (init exInitEnv exElemPos).1)).1.elementStyle.zIndex = "") ∧
    ((destroy (runScroll [exTick300] (init exInitEnv exElemPos).1)).1.elementStyle.top = "") ∧
    ((destroy (runScroll [exTick300] (init exInitEnv exElemPos).1)).1.elementStyle.bottom = "") ∧
    ((destroy (runScroll [exTick300] (init exInitEnv exElemPos).1)).1.elementStyle.marginTop
      = "") ∧
    ((destroy (runScroll [exTick300] (init exInitEnv exElemPos).1)).1.elementStyle.marginBottom
      = "") :=
  destroy_restores_position_resets_styles exInitEnv [exTick300] exElemPos rfl

end AuderoSticky
